import Mathlib

/-!
Shallow embedding of the PLONK-style proving core of the `ckb-zkp` repository,
covering:

* `src/plonk-with-verifier-contract/plonk-origin/src/ahp/verifier.rs`
  (the verifier round state machine with externally supplied challenges);
* `src/plonk/src/ahp/indexer/arithmetic.rs`
  (`ArithmeticKey`: `construct_linear_combination`, `compute_quotient`, `evaluate`);
* `src/plonk/src/plonk.rs` (`Plonk::keygen`, `Plonk::prove`, `PROTOCOL_NAME`);
* `src/clinkv2/tests/mini.rs` (`Clinkv2Mini::generate_constraints`).

Field elements are modelled by an arbitrary commutative ring with decidable
equality (the Rust code only uses ring operations and `is_zero`).  Fallible
Rust functions returning `Result` are modelled with `Except`; Rust slice
indexing (which panics out of bounds) is modelled with `List.get?` inside the
`Option` monad.  External collaborators (the polynomial commitment scheme, the
prover round engine, serialization) are parameters gathered in environment
structures, so the orchestrator's control flow is embedded exactly while the
collaborators stay opaque.
-/

namespace CkbZkp

/-! ## Verifier round state machine
from `src/plonk-with-verifier-contract/plonk-origin/src/ahp/verifier.rs` -/

/-- Errors of the AHP module.  Constructors mirror the `Error` enum usage
visible in the sources (`MissingEvaluation` appears in commented code). -/
inductive AHPError where
  | missingEvaluation (label : String)
  | other
  deriving Repr, DecidableEq

/-- Embeds `VerifierState<'a, F>`: the reference `info: &'a IndexInfo<F>` is modelled
by an opaque value of type `I`. -/
structure VerifierState (I F : Type) where
  info : I
  alpha : Option F
  beta : Option F
  gamma : Option F
  zeta : Option F
  deriving Repr, DecidableEq

/-- Embeds `FirstMsg<F>` -/
structure FirstMsg (F : Type) where
  beta : F
  gamma : F
  deriving Repr, DecidableEq

/-- Embeds `SecondMsg<F>` -/
structure SecondMsg (F : Type) where
  alpha : F
  deriving Repr, DecidableEq

/-- Embeds `ThirdMsg<F>` -/
structure ThirdMsg (F : Type) where
  zeta : F
  deriving Repr, DecidableEq

/-- Embeds `AHPForPLONK::verifier_init` -/
def verifier_init (I F : Type) (info : I) :
    Except AHPError (VerifierState I F) :=
  .ok { info := info, alpha := none, beta := none, gamma := none, zeta := none }

/-- Embeds `AHPForPLONK::verifier_first_round` -/
def verifier_first_round {I F : Type} (vs : VerifierState I F)
    (beta_new gamma_new : F) :
    Except AHPError (VerifierState I F × FirstMsg F) :=
  .ok ({ vs with beta := some beta_new, gamma := some gamma_new },
       { beta := beta_new, gamma := gamma_new })

/-- Embeds `AHPForPLONK::verifier_second_round` -/
def verifier_second_round {I F : Type} (vs : VerifierState I F)
    (alpha_new : F) :
    Except AHPError (VerifierState I F × SecondMsg F) :=
  .ok ({ vs with alpha := some alpha_new }, { alpha := alpha_new })

/-- Embeds `AHPForPLONK::verifier_third_round` -/
def verifier_third_round {I F : Type} (vs : VerifierState I F)
    (zeta_new : F) :
    Except AHPError (VerifierState I F × ThirdMsg F) :=
  .ok ({ vs with zeta := some zeta_new }, { zeta := zeta_new })

/-! ## ArithmeticKey, from `src/plonk/src/ahp/indexer/arithmetic.rs` -/

/-- Embeds `ark_poly_commit::LinearCombination`: a label plus a list of
(coefficient, polynomial-label) terms, as built by `LinearCombination::new`. -/
structure LinearCombination (F : Type) where
  label : String
  terms : List (F × String)
  deriving Repr, DecidableEq

/-- Embeds `ArithmeticKey::construct_linear_combination` -/
def construct_linear_combination {F : Type} [CommRing F]
    (w_evals : F × F × F × F) (q_arith_eval : F) : LinearCombination F :=
  let (w_0_eval, w_1_eval, w_2_eval, w_3_eval) := w_evals
  { label := "arithmetic"
    terms :=
      [ (q_arith_eval * w_0_eval, "q_0"),
        (q_arith_eval * w_1_eval, "q_1"),
        (q_arith_eval * w_2_eval, "q_2"),
        (q_arith_eval * w_3_eval, "q_3"),
        (q_arith_eval * w_1_eval * w_2_eval, "q_m"),
        (q_arith_eval, "q_c") ] }

/-- Embeds `ArithmeticKey::evaluate`: the per-point arithmetic gate term.
`q_arith.is_zero()` is modelled by decidable equality with `0`. -/
def ArithmeticKey.evaluate {F : Type} [CommRing F] [DecidableEq F]
    (w_0 w_1 w_2 w_3 q_0 q_1 q_2 q_3 q_m q_c q_arith pi : F) : F :=
  if q_arith = 0 then 0
  else
    (q_0 * w_0 + q_1 * w_1 + q_2 * w_2 + q_3 * w_3
      + q_m * w_1 * w_2 + q_c + pi) * q_arith

/-- Collect `f i` for `i` in an index list, failing if any access fails:
the `Option`-monad model of the `(0..domain_4n.size()).map(...).collect()`
loop whose body indexes into slices. -/
def collectIdx {F : Type} (f : Nat → Option F) : List Nat → Option (List F)
  | [] => some []
  | i :: is => do
      let x ← f i
      let r ← collectIdx f is
      pure (x :: r)

/-- Embeds `ArithmeticKey::compute_quotient`, with the selector domain-4n evaluation
vectors `q_*` passed explicitly (they are the `.2` components of the key's
tuples), the wire slices `w_*_4n` and the public-input slice `pi_4n`.
Slice indexing `v[i]` is modelled by `List.get?`, so the result is `none`
exactly when some access in the source would be out of bounds (a panic). -/
def ArithmeticKey.compute_quotient {F : Type} [CommRing F] [DecidableEq F]
    (size_4n : Nat)
    (w_0_4n w_1_4n w_2_4n w_3_4n : List F)
    (q_0 q_1 q_2 q_3 q_m q_c q_arith : List F)
    (pi_4n : List F) : Option (List F) :=
  collectIdx
    (fun i => do
      let w0 ← w_0_4n.get? i
      let w1 ← w_1_4n.get? i
      let w2 ← w_2_4n.get? i
      let w3 ← w_3_4n.get? i
      let a0 ← q_0.get? i
      let a1 ← q_1.get? i
      let a2 ← q_2.get? i
      let a3 ← q_3.get? i
      let am ← q_m.get? i
      let ac ← q_c.get? i
      let aa ← q_arith.get? i
      let p ← pi_4n.get? i
      pure (ArithmeticKey.evaluate w0 w1 w2 w3 a0 a1 a2 a3 am ac aa p))
    (List.range size_4n)

/-! ## Top-level orchestrator, from `src/plonk/src/plonk.rs` -/

/-- Byte strings (`Vec<u8>`); each entry is one byte. -/
abbrev Bytes := List Nat

/-- Embeds `Error<PC::Error>` of the plonk crate, as used by `plonk.rs`:
`CircuitTooLarge`, `Error::from_pc_err` wrapping a commitment-scheme error,
and the final `Error::Other`. -/
inductive PlonkError (ε : Type) where
  | circuitTooLarge
  | fromPC (e : ε)
  | other
  deriving Repr, DecidableEq

/-- Embeds `FiatShamirRng` symbolic state: the seed it was created from and the
byte strings absorbed so far, in order. -/
structure FiatShamirRng where
  seed : Bytes
  absorbed : List Bytes
  deriving Repr, DecidableEq

/-- Embeds `FiatShamirRng::from_seed` -/
def FiatShamirRng.from_seed (b : Bytes) : FiatShamirRng :=
  { seed := b, absorbed := [] }

/-- Embeds `FiatShamirRng::absorb` -/
def FiatShamirRng.absorb (s : FiatShamirRng) (b : Bytes) : FiatShamirRng :=
  { s with absorbed := s.absorbed ++ [b] }

/-- Embeds `Plonk::PROTOCOL_NAME = b"PLONK"` (ASCII). -/
def Plonk.PROTOCOL_NAME : Bytes := [80, 76, 79, 78, 75]

/-- Embeds `VerifierKey { info, comms, rk }` from `src/plonk/src/data_structures.rs`
usage in `keygen` (commitments listed in index order). -/
structure PVerifierKey (I C VK : Type) where
  info : I
  comms : List C
  rk : VK
  deriving Repr, DecidableEq

/-- Embeds `ProverKey { keys, rands, ck }`. -/
structure PProverKey (K R CK : Type) where
  keys : K
  rands : List R
  ck : CK
  deriving Repr, DecidableEq

/-- Environment for `Plonk::keygen`: outcomes of the collaborator calls for
the fixed arguments `(srs, cs, ks)`.  `generate` is
`PreprocessorKeys::generate(cs, ks)`, `maxDegree` is `srs.max_degree()`,
`trim d` is `PC::trim(srs, d, 0, None)`, `commit ck ps` is
`PC::commit(&ck, ps, None)`, `commitment` is `c.commitment().clone()`. -/
structure KeygenEnv (K I LP CK VK LC C R ε : Type) where
  generate : Except (PlonkError ε) K
  size : K → Nat
  info : K → I
  keysIter : K → List LP
  maxDegree : Nat
  trim : Nat → Except ε (CK × VK)
  commit : CK → List LP → Except ε (List LC × List R)
  commitment : LC → C

/-- Commitment-scheme effects performed by `keygen`, in order. -/
inductive KeygenEffect (LP : Type) where
  | trim (degree : Nat)
  | commit (polys : List LP)
  deriving Repr, DecidableEq

/-- Embeds `Plonk::keygen`, returning the result together with the ordered log of
commitment-scheme effects it performed. -/
def Plonk.keygen {K I LP CK VK LC C R ε : Type}
    (env : KeygenEnv K I LP CK VK LC C R ε) :
    Except (PlonkError ε) (PProverKey K R CK × PVerifierKey I C VK)
      × List (KeygenEffect LP) :=
  match env.generate with
  | .error e => (.error e, [])
  | .ok keys =>
    if env.maxDegree < env.size keys then
      (.error .circuitTooLarge, [])
    else
      match env.trim (env.size keys) with
      | .error e => (.error (.fromPC e), [.trim (env.size keys)])
      | .ok (ck, vk) =>
        match env.commit ck (env.keysIter keys) with
        | .error e =>
            (.error (.fromPC e),
             [.trim (env.size keys), .commit (env.keysIter keys)])
        | .ok (comms, rands) =>
            (.ok ({ keys := keys, rands := rands, ck := ck },
                  { info := env.info keys,
                    comms := comms.map env.commitment,
                    rk := vk }),
             [.trim (env.size keys), .commit (env.keysIter keys)])

/-- Environment for `Plonk::prove`: outcomes of the collaborator calls for
the fixed arguments `(pk, cs)`.  `proverInit`/`verifierInit` are
`Prover::init(cs, &pk.keys)` and `Verifier::init(pk.keys.info())`;
`publicInputBytes p` is `to_bytes![p.public_input()]`; `commit os rng` is
`PC::commit(&pk.ck, os, Some(zk_rng))` with the rng state threaded
explicitly; `commBytes`/`randBytes` are `to_bytes!` of the returned
commitments resp. randomness; the `v*Round` functions are the verifier's
round calls deriving challenges deterministically from the transcript
state passed to them. -/
structure ProveEnv (F O C R Rng PS ε : Type) where
  proverInit : Except (PlonkError ε) PS
  verifierInit : Except (PlonkError ε) Unit
  publicInputBytes : PS → Bytes
  firstRound : PS → Except (PlonkError ε) O
  commit : O → Rng → Except ε ((C × R) × Rng)
  commBytes : C → Bytes
  randBytes : R → Bytes
  vFirstRound : FiatShamirRng → Except (PlonkError ε) (FirstMsg F)
  secondRound : FirstMsg F → Except (PlonkError ε) O
  vSecondRound : FiatShamirRng → Except (PlonkError ε) (SecondMsg F)
  thirdRound : SecondMsg F → Except (PlonkError ε) O
  vThirdRound : FiatShamirRng → Except (PlonkError ε) (ThirdMsg F)

/-- Transcript events of one `prove` run, in order. -/
inductive PEvent (F : Type) where
  | seeded (b : Bytes)
  | absorbed (b : Bytes)
  | challenged (cs : List F)
  deriving Repr, DecidableEq

/-- Embeds `Plonk::prove` over a `ProveEnv`; `P` is the proof type (never produced).
Returns the result together with the ordered transcript event log.
`to_bytes![&Self::PROTOCOL_NAME, &pi]` is modelled as concatenation of the
protocol-name bytes and the serialized public input. -/
def Plonk.prove {F O C R Rng PS P ε : Type}
    (env : ProveEnv F O C R Rng PS ε) (zk_rng : Rng) :
    Except (PlonkError ε) P × List (PEvent F) :=
  match env.proverInit with
  | .error e => (.error e, [])
  | .ok p =>
  match env.verifierInit with
  | .error e => (.error e, [])
  | .ok _ =>
  let pi := env.publicInputBytes p
  let fs0 := FiatShamirRng.from_seed (Plonk.PROTOCOL_NAME ++ pi)
  let log0 : List (PEvent F) := [.seeded (Plonk.PROTOCOL_NAME ++ pi)]
  match env.firstRound p with
  | .error e => (.error e, log0)
  | .ok first_oracles =>
  match env.commit first_oracles zk_rng with
  | .error e => (.error (.fromPC e), log0)
  | .ok ((first_comms, _first_rands), rng1) =>
  let fs1 := fs0.absorb (env.commBytes first_comms)
  let log1 := log0 ++ [.absorbed (env.commBytes first_comms)]
  match env.vFirstRound fs1 with
  | .error e => (.error e, log1)
  | .ok first_msg =>
  let log1c := log1 ++ [.challenged [first_msg.beta, first_msg.gamma]]
  match env.secondRound first_msg with
  | .error e => (.error e, log1c)
  | .ok second_oracles =>
  match env.commit second_oracles rng1 with
  | .error e => (.error (.fromPC e), log1c)
  | .ok ((second_comms, _second_rands), rng2) =>
  let fs2 := fs1.absorb (env.commBytes second_comms)
  let log2 := log1c ++ [.absorbed (env.commBytes second_comms)]
  match env.vSecondRound fs2 with
  | .error e => (.error e, log2)
  | .ok second_msg =>
  let log2c := log2 ++ [.challenged [second_msg.alpha]]
  match env.thirdRound second_msg with
  | .error e => (.error e, log2c)
  | .ok third_oracles =>
  match env.commit third_oracles rng2 with
  | .error e => (.error (.fromPC e), log2c)
  | .ok ((_thrid_comms, third_rands), _rng3) =>
  let fs3 := fs2.absorb (env.randBytes third_rands)
  let log3 := log2c ++ [.absorbed (env.randBytes third_rands)]
  match env.vThirdRound fs3 with
  | .error e => (.error e, log3)
  | .ok third_msg =>
  let log3c := log3 ++ [.challenged [third_msg.zeta]]
  (.error .other, log3c)

/-! ## Clinkv2 mini circuit, from `src/clinkv2/tests/mini.rs` -/

/-- Embeds `SynthesisError` as used by `mini.rs` (`AssignmentMissing`). -/
inductive SynthesisError where
  | assignmentMissing
  deriving Repr, DecidableEq

/-- Variables of the constraint system: public inputs, auxiliary (witness)
variables, and the constant-one variable `CS::one()`, each identified by
allocation order. -/
inductive Var where
  | input (i : Nat)
  | aux (i : Nat)
  | one
  deriving Repr, DecidableEq

/-- A linear combination over constraint-system variables, as built by the
closures `|lc| lc + var + (coeff, var) ...` in `mini.rs`. -/
structure LinComb (F : Type) where
  terms : List (F × Var)
  deriving Repr, DecidableEq

/-- Operations recorded against the constraint system, in call order. -/
inductive CSOp (F : Type) where
  | allocInput (label : String) (value : F) (index : Nat)
  | alloc (label : String) (value : F) (index : Nat)
  | enforce (label : String) (a b c : LinComb F)
  deriving Repr, DecidableEq

/-- State of the constraint system collaborator (`ConstraintSystem<F>`):
counters assigning variable handles in allocation order plus the ordered
log of performed operations. -/
structure CSState (F : Type) where
  numInputs : Nat
  numAux : Nat
  ops : List (CSOp F)
  deriving Repr, DecidableEq

/-- Embeds `cs.alloc_input(name, value, index)`: evaluates the assignment
closure, records the allocation, returns the fresh input variable. -/
def CSState.alloc_input {F : Type} (st : CSState F) (label : String)
    (value : Except SynthesisError F) (index : Nat) :
    Except SynthesisError (Var × CSState F) := do
  let v ← value
  .ok (Var.input st.numInputs,
       { st with numInputs := st.numInputs + 1,
                 ops := st.ops ++ [.allocInput label v index] })

/-- Embeds `cs.alloc(name, value, index)`: evaluates the assignment closure,
records the allocation, returns the fresh auxiliary variable. -/
def CSState.alloc {F : Type} (st : CSState F) (label : String)
    (value : Except SynthesisError F) (index : Nat) :
    Except SynthesisError (Var × CSState F) := do
  let v ← value
  .ok (Var.aux st.numAux,
       { st with numAux := st.numAux + 1,
                 ops := st.ops ++ [.alloc label v index] })

/-- Embeds `cs.enforce(name, a, b, c)`: records the constraint `a * b = c`. -/
def CSState.enforce {F : Type} (st : CSState F) (label : String)
    (a b c : LinComb F) : CSState F :=
  { st with ops := st.ops ++ [.enforce label a b c] }

/-- Embeds `self.x.ok_or(SynthesisError::AssignmentMissing)`. -/
def ofAssignment {F : Type} : Option F → Except SynthesisError F
  | some v => .ok v
  | none => .error .assignmentMissing

/-- Embeds the `Clinkv2Mini` circuit struct (`num` is the unused `u32`). -/
structure Clinkv2Mini (F : Type) where
  x : Option F
  y : Option F
  z : Option F
  num : Nat
  deriving Repr, DecidableEq

/-- Embeds `Clinkv2Mini::generate_constraints`. -/
def Clinkv2Mini.generate_constraints {F : Type} [CommRing F]
    (self : Clinkv2Mini F) (cs : CSState F) (index : Nat) :
    Except SynthesisError (CSState F) := do
  let (_, cs) ← cs.alloc_input "" (.ok 1) index
  let (var_x, cs) ← cs.alloc "x" (ofAssignment self.x) index
  let (var_y, cs) ← cs.alloc "y" (ofAssignment self.y) index
  let (var_z, cs) ← cs.alloc_input "z(output)" (ofAssignment self.z) index
  let cs :=
    if index = 0 then
      cs.enforce "x * (y + 2) = z"
        { terms := [(1, var_x)] }
        { terms := [(1, var_y), (2, Var.one)] }
        { terms := [(1, var_z)] }
    else cs
  .ok cs

/-! ## Concrete environments used by witnesses and counterexamples -/

/-- Sum of the coefficients a linear combination attaches to a given
polynomial label. -/
def LinearCombination.coeffOf {F : Type} [CommRing F]
    (lc : LinearCombination F) (lbl : String) : F :=
  (lc.terms.filter (fun t => t.2 == lbl)).foldl (fun acc t => acc + t.1) 0

/-- A concrete all-successful `ProveEnv` over small numeric carrier types:
oracles are `1`, `2`, `3` per round; `commit o r = ((o, o + 100), r + 1)`,
so the three rounds produce commitments `1`, `2`, `3` and randomness
`101`, `102`, `103`; commitments and randomness both serialize to the
singleton byte string of their value. -/
def envP : ProveEnv Int Nat Nat Nat Nat Nat Unit where
  proverInit := .ok 0
  verifierInit := .ok ()
  publicInputBytes := fun _ => [9]
  firstRound := fun _ => .ok 1
  commit := fun o r => .ok ((o, o + 100), r + 1)
  commBytes := fun c => [c]
  randBytes := fun r => [r]
  vFirstRound := fun _ => .ok { beta := 1, gamma := 2 }
  secondRound := fun _ => .ok 2
  vSecondRound := fun _ => .ok { alpha := 3 }
  thirdRound := fun _ => .ok 3
  vThirdRound := fun _ => .ok { zeta := 4 }

/-- A concrete `KeygenEnv`: one index key of size `1`, SRS degree `5`,
`trim d = (d, d)`, `commit ck ps = (ps, [ck])`, commitments shifted by 10. -/
def envC4 : KeygenEnv Nat Nat Nat Nat Nat Nat Nat Nat Unit where
  generate := .ok 1
  size := fun k => k
  info := fun k => k
  keysIter := fun k => [k]
  maxDegree := 5
  trim := fun d => .ok (d, d)
  commit := fun ck ps => .ok (ps, [ck])
  commitment := fun c => c + 10

/-! ## Theorems -/

/-- C6: `verifier_init` returns a state whose `alpha`, `beta`, `gamma` and
`zeta` are all `None`, and `verifier_first_round` sets `beta` and `gamma` to
exactly the supplied values, returns those same two values in the
`FirstMsg`, and leaves the `info` reference, `alpha` and `zeta` unchanged
(stated for an arbitrary input state, which covers the state produced by
`verifier_init`). -/
theorem C6_verifier_init_first_round {I F : Type} (info : I)
    (vs : VerifierState I F) (b g : F) :
    verifier_init I F info =
      .ok { info := info, alpha := none, beta := none, gamma := none,
            zeta := none }
    ∧ verifier_first_round vs b g =
      .ok ({ info := vs.info, alpha := vs.alpha, beta := some b,
             gamma := some g, zeta := vs.zeta },
           { beta := b, gamma := g }) :=
  ⟨rfl, rfl⟩

/-- C3 counterexample: `verifier_second_round` called on a fresh state whose
`beta` and `gamma` are still `None` succeeds (returns `Ok`) instead of
failing, and called on a state whose `alpha` is already set it silently
overwrites `alpha`, again returning `Ok`. -/
theorem C3_counterexample :
    verifier_second_round (I := Nat) (F := Int)
        { info := 0, alpha := none, beta := none, gamma := none, zeta := none }
        3
      = .ok ({ info := 0, alpha := some 3, beta := none, gamma := none,
               zeta := none }, { alpha := 3 })
    ∧ verifier_second_round (I := Nat) (F := Int)
        { info := 0, alpha := some 5, beta := some 1, gamma := some 2,
          zeta := none } 3
      = .ok ({ info := 0, alpha := some 3, beta := some 1, gamma := some 2,
               zeta := none }, { alpha := 3 }) :=
  ⟨rfl, rfl⟩

/-- C3 amended: `verifier_second_round` and `verifier_third_round` perform no
state-invariant check at all: each returns `Ok` unconditionally, setting
(or silently overwriting) the `alpha` resp. `zeta` field to the supplied
value, even before `verifier_first_round` has run and even when called
twice. -/
theorem C3_amended_rounds_unchecked {I F : Type} (vs : VerifierState I F)
    (a z : F) :
    verifier_second_round vs a =
      .ok ({ vs with alpha := some a }, { alpha := a })
    ∧ verifier_third_round vs z =
      .ok ({ vs with zeta := some z }, { zeta := z }) :=
  ⟨rfl, rfl⟩

/-- C5: `construct_linear_combination` builds the linear combination labelled
"arithmetic" whose coefficient on `q_i` is `q_arith * w_i` for `i` in
`0..3`, on `q_m` is `q_arith * w_1 * w_2`, and on `q_c` is `q_arith`. -/
theorem C5_construct_linear_combination {F : Type} [CommRing F]
    (w_0 w_1 w_2 w_3 q_arith_eval : F) :
    (construct_linear_combination (w_0, w_1, w_2, w_3) q_arith_eval).label
        = "arithmetic"
    ∧ (construct_linear_combination (w_0, w_1, w_2, w_3)
          q_arith_eval).coeffOf "q_0" = q_arith_eval * w_0
    ∧ (construct_linear_combination (w_0, w_1, w_2, w_3)
          q_arith_eval).coeffOf "q_1" = q_arith_eval * w_1
    ∧ (construct_linear_combination (w_0, w_1, w_2, w_3)
          q_arith_eval).coeffOf "q_2" = q_arith_eval * w_2
    ∧ (construct_linear_combination (w_0, w_1, w_2, w_3)
          q_arith_eval).coeffOf "q_3" = q_arith_eval * w_3
    ∧ (construct_linear_combination (w_0, w_1, w_2, w_3)
          q_arith_eval).coeffOf "q_m" = q_arith_eval * w_1 * w_2
    ∧ (construct_linear_combination (w_0, w_1, w_2, w_3)
          q_arith_eval).coeffOf "q_c" = q_arith_eval := by
  refine ⟨rfl, ?_, ?_, ?_, ?_, ?_, ?_⟩ <;>
    simp [LinearCombination.coeffOf, construct_linear_combination,
      List.filter]

/-- Every control path of `Plonk::prove` ends in an error (the early
propagated errors or the final `Err(Error::Other)`). -/
theorem prove_result_isError {F O C R Rng PS P ε : Type}
    (env : ProveEnv F O C R Rng PS ε) (zk_rng : Rng) :
    ∃ e, (Plonk.prove (P := P) env zk_rng).1 = .error e := by
  unfold Plonk.prove
  repeat' first
    | exact ⟨_, rfl⟩
    | split
    | dsimp only

/-- C7: in the reference material `prove` never returns `Ok`: whatever the
collaborator outcomes, the result is an error, and when every
commitment-scheme call and round computation succeeds the run completes all
three rounds and returns `Err(Error::Other)`. -/
theorem C7_prove_always_fails {F O C R Rng PS P ε : Type}
    (env : ProveEnv F O C R Rng PS ε) (zk_rng : Rng)
    (hPI : ∃ p, env.proverInit = .ok p)
    (hVI : env.verifierInit = .ok ())
    (hFR : ∀ p, ∃ o, env.firstRound p = .ok o)
    (hC : ∀ o r, ∃ cr, env.commit o r = .ok cr)
    (hV1 : ∀ s, ∃ m, env.vFirstRound s = .ok m)
    (hSR : ∀ m, ∃ o, env.secondRound m = .ok o)
    (hV2 : ∀ s, ∃ m, env.vSecondRound s = .ok m)
    (hTR : ∀ m, ∃ o, env.thirdRound m = .ok o)
    (hV3 : ∀ s, ∃ m, env.vThirdRound s = .ok m) :
    (∀ pf : P, (Plonk.prove env zk_rng).1 ≠ .ok pf)
    ∧ (Plonk.prove (P := P) env zk_rng).1 = .error .other := by
  constructor
  · intro pf hok
    obtain ⟨e, he⟩ := prove_result_isError (P := P) env zk_rng
    rw [he] at hok
    exact Except.noConfusion hok
  · obtain ⟨p, hp⟩ := hPI
    obtain ⟨o1, ho1⟩ := hFR p
    obtain ⟨⟨⟨c1, r1⟩, rng1⟩, hc1⟩ := hC o1 zk_rng
    obtain ⟨m1, hm1⟩ := hV1
      ((FiatShamirRng.from_seed
          (Plonk.PROTOCOL_NAME ++ env.publicInputBytes p)).absorb
        (env.commBytes c1))
    obtain ⟨o2, ho2⟩ := hSR m1
    obtain ⟨⟨⟨c2, r2⟩, rng2⟩, hc2⟩ := hC o2 rng1
    obtain ⟨m2, hm2⟩ := hV2
      (((FiatShamirRng.from_seed
            (Plonk.PROTOCOL_NAME ++ env.publicInputBytes p)).absorb
          (env.commBytes c1)).absorb (env.commBytes c2))
    obtain ⟨o3, ho3⟩ := hTR m2
    obtain ⟨⟨⟨c3, r3⟩, rng3⟩, hc3⟩ := hC o3 rng2
    obtain ⟨m3, hm3⟩ := hV3
      ((((FiatShamirRng.from_seed
              (Plonk.PROTOCOL_NAME ++ env.publicInputBytes p)).absorb
            (env.commBytes c1)).absorb (env.commBytes c2)).absorb
        (env.randBytes r3))
    simp [Plonk.prove, hp, hVI, ho1, hc1, hm1, ho2, hc2, hm2, ho3, hc3, hm3]

/-- C7 witness: on the concrete all-successful environment `envP`, `prove`
returns `Err(Error::Other)`. -/
theorem C7_witness : (Plonk.prove (P := Nat) envP 0).1 = .error .other :=
  (C7_prove_always_fails (P := Nat) envP 0
    ⟨0, rfl⟩ rfl (fun _ => ⟨1, rfl⟩)
    (fun o r => ⟨((o, o + 100), r + 1), rfl⟩)
    (fun _ => ⟨{ beta := 1, gamma := 2 }, rfl⟩)
    (fun _ => ⟨2, rfl⟩)
    (fun _ => ⟨{ alpha := 3 }, rfl⟩)
    (fun _ => ⟨3, rfl⟩)
    (fun _ => ⟨{ zeta := 4 }, rfl⟩)).2

/-- C8: `prove` is deterministic: two runs with identical prover key,
witness and collaborator outcomes (same environment) and identical
randomness source produce identical transcript event logs (seed, absorbed
byte strings and derived challenges) and identical results. -/
theorem C8_prove_deterministic {F O C R Rng PS P ε : Type}
    (env1 env2 : ProveEnv F O C R Rng PS ε) (rng1 rng2 : Rng)
    (henv : env1 = env2) (hrng : rng1 = rng2) :
    Plonk.prove (P := P) env1 rng1 = Plonk.prove (P := P) env2 rng2 := by
  subst henv
  subst hrng
  rfl

/-- C8 witness: the determinism theorem applied at the concrete environment
`envP`. -/
theorem C8_witness :
    Plonk.prove (P := Nat) envP 0 = Plonk.prove (P := Nat) envP 0 :=
  C8_prove_deterministic envP envP 0 0 rfl rfl

/-- C1 (code bug evidence): on the concrete all-successful environment
`envP` the transcript is seeded with `PROTOCOL_NAME ++ pi`, the first- and
second-round commitments are absorbed before the first resp. second
challenges, but before the third challenge `prove` absorbs the serialized
third-round commitment RANDOMNESS `to_bytes![third_rands]` (here `[103]`),
not the serialized third-round commitments (here `commBytes 3 = [3]`). -/
theorem C1_third_round_absorbs_randomness :
    (Plonk.prove (P := Nat) envP 0).2 =
      [ .seeded [80, 76, 79, 78, 75, 9],
        .absorbed [1], .challenged [(1 : Int), 2],
        .absorbed [2], .challenged [3],
        .absorbed [103], .challenged [4] ]
    ∧ envP.randBytes 103 = [103]
    ∧ envP.commBytes 3 = [3]
    ∧ ([103] : Bytes) ≠ [3] := by
  refine ⟨?_, rfl, rfl, by decide⟩
  rfl

/-- C4: once the index keys are generated, `keygen` returns
`Err(CircuitTooLarge)` exactly when the SRS maximum degree is smaller than
`keys.size()`, and in that case it performs no trim or commit; when the
degree suffices it trims the SRS to `keys.size()`, commits to every index
polynomial (`keys.iter()`), and returns the `(ProverKey, VerifierKey)`
pair. -/
theorem C4_keygen_circuit_too_large {K I LP CK VK LC C R ε : Type}
    (env : KeygenEnv K I LP CK VK LC C R ε) (keys : K)
    (hgen : env.generate = .ok keys) :
    ((Plonk.keygen env).1 = .error .circuitTooLarge
        ↔ env.maxDegree < env.size keys)
    ∧ (env.maxDegree < env.size keys → (Plonk.keygen env).2 = [])
    ∧ (∀ ck vk comms rands,
        ¬ env.maxDegree < env.size keys →
        env.trim (env.size keys) = .ok (ck, vk) →
        env.commit ck (env.keysIter keys) = .ok (comms, rands) →
        (Plonk.keygen env).1 =
          .ok ({ keys := keys, rands := rands, ck := ck },
               { info := env.info keys,
                 comms := comms.map env.commitment, rk := vk })
        ∧ (Plonk.keygen env).2 =
          [.trim (env.size keys), .commit (env.keysIter keys)]) := by
  by_cases hlt : env.maxDegree < env.size keys
  · refine ⟨⟨fun _ => hlt, fun _ => ?_⟩, fun _ => ?_,
      fun ck vk comms rands hn _ _ => absurd hlt hn⟩
    · simp [Plonk.keygen, hgen, hlt]
    · simp [Plonk.keygen, hgen, hlt]
  · refine ⟨⟨fun h => ?_, fun h => absurd h hlt⟩, fun h => absurd h hlt, ?_⟩
    · exfalso
      rcases htrim : env.trim (env.size keys) with e | ⟨ck, vk⟩
      · simp [Plonk.keygen, hgen, hlt, htrim] at h
      · rcases hcommit : env.commit ck (env.keysIter keys) with e | ⟨comms, rands⟩
        · simp [Plonk.keygen, hgen, hlt, htrim, hcommit] at h
        · simp [Plonk.keygen, hgen, hlt, htrim, hcommit] at h
    · intro ck vk comms rands _ htrim hcommit
      constructor <;> simp [Plonk.keygen, hgen, hlt, htrim, hcommit]

/-- C4 witness: on the concrete environment `envC4` (index size 1, SRS
degree 5), `keygen` trims to degree 1, commits to the single index
polynomial, and returns the key pair. -/
theorem C4_witness :
    (Plonk.keygen envC4).1 =
      .ok ({ keys := 1, rands := [1], ck := 1 },
           { info := 1, comms := [11], rk := 1 })
    ∧ (Plonk.keygen envC4).2 = [.trim 1, .commit [1]] :=
  (C4_keygen_circuit_too_large envC4 1 rfl).2.2 1 1 [1] [1] (by decide) rfl rfl

/-- If the body succeeds on every listed index, `collectIdx` succeeds and
collects the values in order. -/
theorem collectIdx_eq_map {F : Type} (f : Nat → Option F) (g : Nat → F)
    (l : List Nat) (h : ∀ i ∈ l, f i = some (g i)) :
    collectIdx f l = some (l.map g) := by
  induction l with
  | nil => rfl
  | cons i is ih =>
      simp [collectIdx, h i (by simp),
        ih (fun j hj => h j (by simp [hj]))]

/-- In-bounds list access returns the default-free element. -/
theorem get?_eq_some_getD {F : Type} (l : List F) (i : Nat) (d : F)
    (h : i < l.length) : l.get? i = some (l.getD i d) := by
  rw [List.getD_eq_get?]
  cases hg : l.get? i with
  | none =>
      have := List.get?_eq_none.mp hg
      omega
  | some a => rfl

/-- When every input vector covers the domain, `compute_quotient` succeeds
and equals the pointwise map of `ArithmeticKey.evaluate` over the domain
indices. -/
theorem compute_quotient_eq_map {F : Type} [CommRing F] [DecidableEq F]
    (size_4n : Nat)
    (w_0_4n w_1_4n w_2_4n w_3_4n q_0 q_1 q_2 q_3 q_m q_c q_arith pi_4n :
      List F)
    (hw0 : size_4n ≤ w_0_4n.length) (hw1 : size_4n ≤ w_1_4n.length)
    (hw2 : size_4n ≤ w_2_4n.length) (hw3 : size_4n ≤ w_3_4n.length)
    (h0 : size_4n ≤ q_0.length) (h1 : size_4n ≤ q_1.length)
    (h2 : size_4n ≤ q_2.length) (h3 : size_4n ≤ q_3.length)
    (hm : size_4n ≤ q_m.length) (hc : size_4n ≤ q_c.length)
    (ha : size_4n ≤ q_arith.length) (hpi : size_4n ≤ pi_4n.length) :
    ArithmeticKey.compute_quotient size_4n w_0_4n w_1_4n w_2_4n w_3_4n
        q_0 q_1 q_2 q_3 q_m q_c q_arith pi_4n =
      some ((List.range size_4n).map (fun j =>
        ArithmeticKey.evaluate (w_0_4n.getD j 0) (w_1_4n.getD j 0)
          (w_2_4n.getD j 0) (w_3_4n.getD j 0) (q_0.getD j 0) (q_1.getD j 0)
          (q_2.getD j 0) (q_3.getD j 0) (q_m.getD j 0) (q_c.getD j 0)
          (q_arith.getD j 0) (pi_4n.getD j 0))) := by
  unfold ArithmeticKey.compute_quotient
  apply collectIdx_eq_map
  intro j hj
  have hj' : j < size_4n := List.mem_range.mp hj
  rw [get?_eq_some_getD w_0_4n j 0 (lt_of_lt_of_le hj' hw0),
    get?_eq_some_getD w_1_4n j 0 (lt_of_lt_of_le hj' hw1),
    get?_eq_some_getD w_2_4n j 0 (lt_of_lt_of_le hj' hw2),
    get?_eq_some_getD w_3_4n j 0 (lt_of_lt_of_le hj' hw3),
    get?_eq_some_getD q_0 j 0 (lt_of_lt_of_le hj' h0),
    get?_eq_some_getD q_1 j 0 (lt_of_lt_of_le hj' h1),
    get?_eq_some_getD q_2 j 0 (lt_of_lt_of_le hj' h2),
    get?_eq_some_getD q_3 j 0 (lt_of_lt_of_le hj' h3),
    get?_eq_some_getD q_m j 0 (lt_of_lt_of_le hj' hm),
    get?_eq_some_getD q_c j 0 (lt_of_lt_of_le hj' hc),
    get?_eq_some_getD q_arith j 0 (lt_of_lt_of_le hj' ha),
    get?_eq_some_getD pi_4n j 0 (lt_of_lt_of_le hj' hpi)]
  rfl

/-- C9: under the precondition that the four wire slices, the seven stored
selector domain-4n vectors, and the public-input slice all have length at
least `domain_4n.size()`, every index access in `compute_quotient` is in
bounds (the computation succeeds) and the returned vector has length
exactly `domain_4n.size()`. -/
theorem C9_compute_quotient_total {F : Type} [CommRing F] [DecidableEq F]
    (size_4n : Nat)
    (w_0_4n w_1_4n w_2_4n w_3_4n q_0 q_1 q_2 q_3 q_m q_c q_arith pi_4n :
      List F)
    (hw0 : size_4n ≤ w_0_4n.length) (hw1 : size_4n ≤ w_1_4n.length)
    (hw2 : size_4n ≤ w_2_4n.length) (hw3 : size_4n ≤ w_3_4n.length)
    (h0 : size_4n ≤ q_0.length) (h1 : size_4n ≤ q_1.length)
    (h2 : size_4n ≤ q_2.length) (h3 : size_4n ≤ q_3.length)
    (hm : size_4n ≤ q_m.length) (hc : size_4n ≤ q_c.length)
    (ha : size_4n ≤ q_arith.length) (hpi : size_4n ≤ pi_4n.length) :
    ∃ out, ArithmeticKey.compute_quotient size_4n w_0_4n w_1_4n w_2_4n
        w_3_4n q_0 q_1 q_2 q_3 q_m q_c q_arith pi_4n = some out
      ∧ out.length = size_4n := by
  refine ⟨_, compute_quotient_eq_map size_4n w_0_4n w_1_4n w_2_4n w_3_4n
    q_0 q_1 q_2 q_3 q_m q_c q_arith pi_4n
    hw0 hw1 hw2 hw3 h0 h1 h2 h3 hm hc ha hpi, ?_⟩
  simp

/-- C9 witness: concrete size-2 instance over the integers. -/
theorem C9_witness :
    ∃ out, ArithmeticKey.compute_quotient 2
        [1, 2] [3, 4] [5, 6] [7, 8] [1, 1] [1, 1] [1, 1] [1, 1] [1, 1]
        [1, 1] [0, 2] ([1, 1] : List Int) = some out
      ∧ out.length = 2 :=
  C9_compute_quotient_total 2 [1, 2] [3, 4] [5, 6] [7, 8] [1, 1] [1, 1]
    [1, 1] [1, 1] [1, 1] [1, 1] [0, 2] [1, 1]
    (by decide) (by decide) (by decide) (by decide) (by decide) (by decide)
    (by decide) (by decide) (by decide) (by decide) (by decide) (by decide)

/-- C2: for every domain-4n index `i` (with all evaluation vectors covering
the domain), the arithmetic quotient term at `i` is `0` whenever
`q_arith[i] = 0`, regardless of the wire values, and otherwise equals
`(q_0*w_0 + q_1*w_1 + q_2*w_2 + q_3*w_3 + q_m*w_1*w_2 + q_c + pi) *
q_arith` evaluated at `i`. -/
theorem C2_compute_quotient_pointwise {F : Type} [CommRing F] [DecidableEq F]
    (size_4n : Nat)
    (w_0_4n w_1_4n w_2_4n w_3_4n q_0 q_1 q_2 q_3 q_m q_c q_arith pi_4n :
      List F)
    (i : Nat)
    (hw0 : size_4n ≤ w_0_4n.length) (hw1 : size_4n ≤ w_1_4n.length)
    (hw2 : size_4n ≤ w_2_4n.length) (hw3 : size_4n ≤ w_3_4n.length)
    (h0 : size_4n ≤ q_0.length) (h1 : size_4n ≤ q_1.length)
    (h2 : size_4n ≤ q_2.length) (h3 : size_4n ≤ q_3.length)
    (hm : size_4n ≤ q_m.length) (hc : size_4n ≤ q_c.length)
    (ha : size_4n ≤ q_arith.length) (hpi : size_4n ≤ pi_4n.length)
    (hi : i < size_4n) :
    ∃ out, ArithmeticKey.compute_quotient size_4n w_0_4n w_1_4n w_2_4n
        w_3_4n q_0 q_1 q_2 q_3 q_m q_c q_arith pi_4n = some out
      ∧ out.get? i = some
          (if q_arith.getD i 0 = 0 then 0
           else (q_0.getD i 0 * w_0_4n.getD i 0
              + q_1.getD i 0 * w_1_4n.getD i 0
              + q_2.getD i 0 * w_2_4n.getD i 0
              + q_3.getD i 0 * w_3_4n.getD i 0
              + q_m.getD i 0 * w_1_4n.getD i 0 * w_2_4n.getD i 0
              + q_c.getD i 0 + pi_4n.getD i 0) * q_arith.getD i 0)
      ∧ (q_arith.getD i 0 = 0 → out.get? i = some 0) := by
  refine ⟨_, compute_quotient_eq_map size_4n w_0_4n w_1_4n w_2_4n w_3_4n
    q_0 q_1 q_2 q_3 q_m q_c q_arith pi_4n
    hw0 hw1 hw2 hw3 h0 h1 h2 h3 hm hc ha hpi, ?_, ?_⟩
  · rw [List.get?_map, List.get?_range hi]
    rfl
  · intro hz
    rw [List.get?_map, List.get?_range hi]
    simp only [Option.map_some']
    unfold ArithmeticKey.evaluate
    rw [if_pos hz]

/-- C2 witness: concrete size-2 instance over the integers; at index 1 the
selector `q_arith` is `2`, and the term evaluates to the stated product. -/
theorem C2_witness :
    ∃ out, ArithmeticKey.compute_quotient 2
        [1, 2] [3, 4] [5, 6] [7, 8] [1, 1] [1, 1] [1, 1] [1, 1] [1, 1]
        [1, 1] [0, 2] ([1, 1] : List Int) = some out
      ∧ out.get? 1 =
          some ((1 * 2 + 1 * 4 + 1 * 6 + 1 * 8 + 1 * 4 * 6 + 1 + 1)
            * (2 : Int)) := by
  obtain ⟨out, hq, hpt, hzero⟩ := C2_compute_quotient_pointwise 2
    [1, 2] [3, 4] [5, 6] [7, 8] [1, 1] [1, 1] [1, 1] [1, 1] [1, 1] [1, 1]
    [0, 2] ([1, 1] : List Int) 1
    (by decide) (by decide) (by decide) (by decide) (by decide) (by decide)
    (by decide) (by decide) (by decide) (by decide) (by decide) (by decide)
    (by decide)
  refine ⟨out, hq, ?_⟩
  rw [hpt]
  norm_num

/-- Bind on a successful `Except` computation reduces. -/
theorem except_ok_bind {ε α β : Type} (a : α) (f : α → Except ε β) :
    (Except.ok a : Except ε α) >>= f = f a := rfl

/-- C10: `Clinkv2Mini::generate_constraints` allocates the public one, `x`,
`y` and `z` variables at every index and returns `Ok`; it adds the
constraint `x * (y + 2) = z` exactly when its `index` argument is `0`, and
adds no constraint for any other index. -/
theorem C10_generate_constraints {F : Type} [CommRing F]
    (self : Clinkv2Mini F) (st : CSState F) (index : Nat) (xv yv zv : F)
    (hx : self.x = some xv) (hy : self.y = some yv) (hz : self.z = some zv) :
    (index ≠ 0 → self.generate_constraints st index =
      .ok { numInputs := st.numInputs + 2, numAux := st.numAux + 2,
            ops := st.ops ++
              [.allocInput "" 1 index, .alloc "x" xv index,
               .alloc "y" yv index, .allocInput "z(output)" zv index] })
    ∧ (index = 0 → self.generate_constraints st index =
      .ok { numInputs := st.numInputs + 2, numAux := st.numAux + 2,
            ops := st.ops ++
              [.allocInput "" 1 0, .alloc "x" xv 0, .alloc "y" yv 0,
               .allocInput "z(output)" zv 0,
               .enforce "x * (y + 2) = z"
                 { terms := [(1, Var.aux st.numAux)] }
                 { terms := [(1, Var.aux (st.numAux + 1)), (2, Var.one)] }
                 { terms := [(1, Var.input (st.numInputs + 1))] }] }) := by
  constructor
  · intro h
    simp [Clinkv2Mini.generate_constraints, CSState.alloc_input,
      CSState.alloc, CSState.enforce, ofAssignment, hx, hy, hz, h,
      except_ok_bind]
  · intro h
    subst h
    simp [Clinkv2Mini.generate_constraints, CSState.alloc_input,
      CSState.alloc, CSState.enforce, ofAssignment, hx, hy, hz,
      except_ok_bind]

/-- C10 witness: the witness `x = 2, y = 3, z = 10` at index `1` allocates
the four variables and adds no constraint. -/
theorem C10_witness :
    Clinkv2Mini.generate_constraints (F := Int)
        { x := some 2, y := some 3, z := some 10, num := 10 }
        { numInputs := 0, numAux := 0, ops := [] } 1 =
      .ok { numInputs := 2, numAux := 2,
            ops := [.allocInput "" 1 1, .alloc "x" 2 1, .alloc "y" 3 1,
                    .allocInput "z(output)" 10 1] } :=
  (C10_generate_constraints (F := Int)
      { x := some 2, y := some 3, z := some 10, num := 10 }
      { numInputs := 0, numAux := 0, ops := [] } 1 2 3 10 rfl rfl rfl).1
    (by decide)

end CkbZkp
